import Mathlib

/-!
Verification of the Grazioso Salvare CRUD adapter (`crud.py`).

The Python module wraps a MongoDB collection behind four operations
(create / read / update / delete) plus constructor-time connection
establishment.  We embed the module shallowly:

* Python values are `PyVal`; a MongoDB document / query / update spec is a
  Python `dict`, i.e. `PyVal.vDict`.
* Python exceptions relevant to the module are `PyErr`
  (`PyMongoError`, `ValueError`, `RuntimeError`); each method body is a
  value of `Except PyErr α`, and the `except errors.PyMongoError` handler
  is `handleExceptPyMongo`, which converts exactly the `pyMongoError`
  case to the method's sentinel and lets every other exception propagate.
* The PyMongo driver is external to the repository; a method's single
  driver call is resolved against a `Driver σ` record (state type `σ`,
  each operation may either return a result or raise a `PyMongoError`
  carrying a message).  The calls a method actually issues are logged in
  the `calls` field of its `OpResult`.
* The adapter instance's fields (`_client`, `_collection`, `_db_name`,
  `_collection_name`) are a `CRUDState` threaded through every method;
  the Python methods contain no field assignment, so each returns the
  state it received.
-/

namespace GraziosoCrud

/-- A Python value: `None`, booleans, integers, strings, lists and dicts
(dicts as association lists of string keys). -/
inductive PyVal where
  | vNone : PyVal
  | vBool : Bool → PyVal
  | vInt : Int → PyVal
  | vStr : String → PyVal
  | vList : List PyVal → PyVal
  | vDict : List (String × PyVal) → PyVal

/-- `isinstance(x, dict)`. -/
def PyVal.isDict : PyVal → Bool
  | .vDict _ => true
  | _ => false

mutual

/-- Structural equality of Python values (Python `==` on the JSON-like
fragment `PyVal` covers). -/
def PyVal.beq : PyVal → PyVal → Bool
  | .vNone, .vNone => true
  | .vBool a, .vBool b => a == b
  | .vInt a, .vInt b => a == b
  | .vStr a, .vStr b => a == b
  | .vList xs, .vList ys => PyVal.beqList xs ys
  | .vDict xs, .vDict ys => PyVal.beqFields xs ys
  | _, _ => false

/-- Elementwise equality of Python lists. -/
def PyVal.beqList : List PyVal → List PyVal → Bool
  | [], [] => true
  | x :: xs, y :: ys => PyVal.beq x y && PyVal.beqList xs ys
  | _, _ => false

/-- Entrywise equality of dict entry lists. -/
def PyVal.beqFields : List (String × PyVal) → List (String × PyVal) → Bool
  | [], [] => true
  | (k1, v1) :: xs, (k2, v2) :: ys =>
    k1 == k2 && PyVal.beq v1 v2 && PyVal.beqFields xs ys
  | _, _ => false

end

instance : BEq PyVal := ⟨PyVal.beq⟩

/-- The exception classes the module distinguishes: the PyMongo driver
error hierarchy (`errors.PyMongoError`), `ValueError` raised by the
module's own input validation, and `RuntimeError` raised by
`_ensure_collection` and `_connect`. -/
inductive PyErr where
  | pyMongoError : String → PyErr
  | valueError : String → PyErr
  | runtimeError : String → PyErr
  deriving DecidableEq

/-- `isinstance(e, errors.PyMongoError)`: which exceptions the
`except errors.PyMongoError` clauses catch. -/
def PyErr.isPyMongoError : PyErr → Bool
  | .pyMongoError _ => true
  | _ => false

/-- The adapter's instance fields, as set by `__init__` / `_connect`
(`MongoClient` handle and the bound `Collection` are reduced to presence
flags; nothing in the module inspects them further). -/
structure CRUDState where
  _client : Option Unit
  _collection : Option Unit
  _db_name : String
  _collection_name : String
  deriving DecidableEq

/-- PyMongo's `InsertOneResult`: `acknowledged` and `inserted_id`. -/
structure InsertOneResult where
  acknowledged : Bool
  inserted_id : Option PyVal

/-- PyMongo's `UpdateResult`: `modified_count`, which the module guards
with `or 0` against an absent (`None`) count. -/
structure UpdateResult where
  modified_count : Option Int
  deriving DecidableEq

/-- PyMongo's `DeleteResult`: `deleted_count`, likewise guarded. -/
structure DeleteResult where
  deleted_count : Option Int
  deriving DecidableEq

/-- One call issued to the underlying driver. -/
inductive DriverCall where
  | insertOneCall : PyVal → DriverCall
  | findCall : PyVal → DriverCall
  | updateOneCall : PyVal → PyVal → DriverCall
  | updateManyCall : PyVal → PyVal → DriverCall
  | deleteOneCall : PyVal → DriverCall
  | deleteManyCall : PyVal → DriverCall

/-- The external PyMongo collection interface, over a driver state `σ`.
Each operation either returns its result or raises a `PyMongoError` with
the given message, and may change the driver state. -/
structure Driver (σ : Type) where
  insert_one : σ → PyVal → Except String InsertOneResult × σ
  find : σ → PyVal → Except String (List PyVal) × σ
  update_one : σ → PyVal → PyVal → Except String UpdateResult × σ
  update_many : σ → PyVal → PyVal → Except String UpdateResult × σ
  delete_one : σ → PyVal → Except String DeleteResult × σ
  delete_many : σ → PyVal → Except String DeleteResult × σ

/-- Outcome of one public CRUD method call: the returned value or the
exception that escaped, the adapter fields after the call, the driver
state after the call, and the driver calls issued. -/
structure OpResult (σ : Type) (α : Type) where
  ret : Except PyErr α
  self : CRUDState
  st : σ
  calls : List DriverCall

/-- The `except errors.PyMongoError as e: print(...); return sentinel`
clause wrapped around each method body: a `pyMongoError` becomes the
sentinel return value, every other exception keeps propagating. -/
def handleExceptPyMongo {σ α : Type} (sentinel : α) (r : OpResult σ α) : OpResult σ α :=
  match r.ret with
  | .error (.pyMongoError _) => { r with ret := .ok sentinel }
  | _ => r

/-- Python's `int(x or 0)` applied to an optional count: `None` and `0`
are falsy, so they give `0`; any other count is returned as-is. -/
def pyIntOrZero : Option Int → Int
  | none => 0
  | some n => if n = 0 then 0 else n

namespace CRUD

/-- `CRUD._ensure_collection`: raise `RuntimeError` when `self._collection`
is `None`, otherwise succeed. -/
def _ensure_collection (self : CRUDState) : Except PyErr Unit :=
  match self._collection with
  | none => .error (.runtimeError "[MongoDB] Collection is not initialized.")
  | some _ => .ok ()

/-- `CRUD.create(document)`: validate that `document` is a dict (raising
`ValueError` otherwise), insert it via `insert_one`, and return
`result.acknowledged and result.inserted_id is not None`; the
`except errors.PyMongoError` clause converts driver errors to `False`. -/
def create {σ : Type} (drv : Driver σ) (self : CRUDState) (st : σ) (document : PyVal) :
    OpResult σ Bool :=
  handleExceptPyMongo false <|
    if !document.isDict then
      { ret := .error (.valueError "create() expects a dict document."),
        self := self, st := st, calls := [] }
    else
      match _ensure_collection self with
      | .error e => { ret := .error e, self := self, st := st, calls := [] }
      | .ok _ =>
        match drv.insert_one st document with
        | (.error msg, st2) =>
          { ret := .error (.pyMongoError msg),
            self := self, st := st2, calls := [.insertOneCall document] }
        | (.ok result, st2) =>
          { ret := .ok (result.acknowledged && result.inserted_id.isSome),
            self := self, st := st2, calls := [.insertOneCall document] }

/-- `CRUD.read(query)`: validate that `query` is a dict, run `find` and
materialize the cursor into a list; driver errors become `[]`. -/
def read {σ : Type} (drv : Driver σ) (self : CRUDState) (st : σ) (query : PyVal) :
    OpResult σ (List PyVal) :=
  handleExceptPyMongo [] <|
    if !query.isDict then
      { ret := .error (.valueError "read() expects a dict query."),
        self := self, st := st, calls := [] }
    else
      match _ensure_collection self with
      | .error e => { ret := .error e, self := self, st := st, calls := [] }
      | .ok _ =>
        match drv.find st query with
        | (.error msg, st2) =>
          { ret := .error (.pyMongoError msg),
            self := self, st := st2, calls := [.findCall query] }
        | (.ok docs, st2) =>
          { ret := .ok docs, self := self, st := st2, calls := [.findCall query] }

/-- `CRUD.update(query, new_values, many)`: validate both arguments are
dicts, dispatch to `update_many` or `update_one` according to `many`,
and return `int(result.modified_count or 0)`; driver errors become `0`. -/
def update {σ : Type} (drv : Driver σ) (self : CRUDState) (st : σ)
    (query new_values : PyVal) (many : Bool) : OpResult σ Int :=
  handleExceptPyMongo 0 <|
    if !query.isDict then
      { ret := .error (.valueError "update() expects a dict query."),
        self := self, st := st, calls := [] }
    else if !new_values.isDict then
      { ret := .error (.valueError "update() expects a dict update spec (e.g., \x7b\x27$set\x27: \x7b...\x7d\x7d)."),
        self := self, st := st, calls := [] }
    else
      match _ensure_collection self with
      | .error e => { ret := .error e, self := self, st := st, calls := [] }
      | .ok _ =>
        let call := if many then DriverCall.updateManyCall query new_values
                    else DriverCall.updateOneCall query new_values
        match (if many then drv.update_many st query new_values
               else drv.update_one st query new_values) with
        | (.error msg, st2) =>
          { ret := .error (.pyMongoError msg), self := self, st := st2, calls := [call] }
        | (.ok result, st2) =>
          { ret := .ok (pyIntOrZero result.modified_count),
            self := self, st := st2, calls := [call] }

/-- `CRUD.delete(query, many)`: validate that `query` is a dict, dispatch
to `delete_many` or `delete_one` according to `many`, and return
`int(result.deleted_count or 0)`; driver errors become `0`. -/
def delete {σ : Type} (drv : Driver σ) (self : CRUDState) (st : σ)
    (query : PyVal) (many : Bool) : OpResult σ Int :=
  handleExceptPyMongo 0 <|
    if !query.isDict then
      { ret := .error (.valueError "delete() expects a dict query."),
        self := self, st := st, calls := [] }
    else
      match _ensure_collection self with
      | .error e => { ret := .error e, self := self, st := st, calls := [] }
      | .ok _ =>
        let call := if many then DriverCall.deleteManyCall query
                    else DriverCall.deleteOneCall query
        match (if many then drv.delete_many st query
               else drv.delete_one st query) with
        | (.error msg, st2) =>
          { ret := .error (.pyMongoError msg), self := self, st := st2, calls := [call] }
        | (.ok result, st2) =>
          { ret := .ok (pyIntOrZero result.deleted_count),
            self := self, st := st2, calls := [call] }

end CRUD

/-- The `MongoConfig` dataclass, with its default field values. -/
structure MongoConfig where
  username : String := ""
  password : String := ""
  host : String := "localhost"
  port : Int := 27017
  authSource : String := "aac"
  tls : Bool := false
  replicaSet : Option String := none
  deriving DecidableEq

/-- Python truthiness of a string: non-empty strings are truthy. -/
def pyTruthyStr (s : String) : Bool := !(s == "")

/-- Python truthiness of `Optional[str]`: `None` and `""` are falsy. -/
def pyTruthyOptStr : Option String → Bool
  | none => false
  | some s => !(s == "")

/-- The `client_kwargs` dictionary built by `CRUD._connect`: the five
always-present options, plus the optional credential and replica-set
entries (absent entries are `none`). -/
structure ClientKwargs where
  host : String
  port : Int
  tls : Bool
  connectTimeoutMS : Int
  serverSelectionTimeoutMS : Int
  username : Option String
  password : Option String
  authSource : Option String
  replicaSet : Option String
  deriving DecidableEq

/-- Lines 63-78 of `crud.py`: build `client_kwargs` from the config —
base options with fixed 5000ms timeouts; `if config.username and
config.password:` add the credentials and `authSource`; `if
config.replicaSet:` add the replica set name. -/
def buildClientKwargs (config : MongoConfig) : ClientKwargs :=
  let base : ClientKwargs :=
    { host := config.host, port := config.port, tls := config.tls,
      connectTimeoutMS := 5000, serverSelectionTimeoutMS := 5000,
      username := none, password := none, authSource := none, replicaSet := none }
  let withCreds :=
    if pyTruthyStr config.username && pyTruthyStr config.password then
      { base with username := some config.username,
                  password := some config.password,
                  authSource := some config.authSource }
    else base
  if pyTruthyOptStr config.replicaSet then
    { withCreds with replicaSet := config.replicaSet }
  else withCreds

/-- A driver interaction made by `CRUD._connect`: constructing the
`MongoClient` from the built kwargs, or the `admin.command("ping")`. -/
inductive ConnectCall where
  | mongoClientCall : ClientKwargs → ConnectCall
  | pingCall : ConnectCall
  deriving DecidableEq

/-- Recognizer for `ConnectCall.mongoClientCall`, used to count
connection attempts. -/
def ConnectCall.isMongoClientCall : ConnectCall → Bool
  | .mongoClientCall _ => true
  | _ => false

namespace CRUD

/-- `CRUD._connect`: build the kwargs, construct the `MongoClient`, force
a ping, then bind `self._client` and `self._collection`.  The driver's
behavior is supplied as `clientOutcome` (the `MongoClient(**client_kwargs)`
call) and `pingOutcome` (the `admin.command("ping")` call); a
`PyMongoError` from either is caught and re-raised as
`RuntimeError("[MongoDB] Connection failed: " + message)`.  Returns the
adapter fields on success together with the driver interactions made. -/
def _connect (config : MongoConfig) (self : CRUDState)
    (clientOutcome : ClientKwargs → Except String Unit)
    (pingOutcome : Except String Unit) :
    Except PyErr CRUDState × List ConnectCall :=
  match clientOutcome (buildClientKwargs config) with
  | .error e =>
    (.error (.runtimeError ("[MongoDB] Connection failed: " ++ e)),
     [.mongoClientCall (buildClientKwargs config)])
  | .ok _ =>
    match pingOutcome with
    | .error e =>
      (.error (.runtimeError ("[MongoDB] Connection failed: " ++ e)),
       [.mongoClientCall (buildClientKwargs config), .pingCall])
    | .ok _ =>
      (.ok { self with _client := some (), _collection := some () },
       [.mongoClientCall (buildClientKwargs config), .pingCall])

/-- `CRUD.__init__`: initialize `_client` and `_collection` to `None`,
record the database and collection names, and run `_connect`.  On
failure the exception propagates and no adapter instance is produced. -/
def init (config : MongoConfig) (db_name collection_name : String)
    (clientOutcome : ClientKwargs → Except String Unit)
    (pingOutcome : Except String Unit) :
    Except PyErr CRUDState × List ConnectCall :=
  let self0 : CRUDState :=
    { _client := none, _collection := none,
      _db_name := db_name, _collection_name := collection_name }
  _connect config self0 clientOutcome pingOutcome

end CRUD

/-!
## A model of the MongoDB driver's semantics

The driver is external to this repository (spec §6 treats it as an
external collaborator issuing standard find/insert/update/delete calls),
so claims about what the driver does to the stored records are settled
against the following model: the driver state is the list of stored
documents, a flat equality query matches a document when every
key/value pair of the query appears in the document, and the
interpretation of an update spec is an arbitrary parameter
`applyUpdate : spec → document → document` (the module passes update
specs through to the driver uninterpreted).
-/

/-- First binding of `key` in a dict's entry list. -/
def lookupField : List (String × PyVal) → String → Option PyVal
  | [], _ => none
  | (k, v) :: rest, key => if k == key then some v else lookupField rest key

/-- Modelled from the spec: MongoDB equality-query matching (spec §3
"Query ... interpreted by the underlying driver's query language" —
pymongo itself is not part of this repository).  A dict query matches a
dict document when each of the query's key/value pairs occurs in the
document. -/
def matchesQuery (query doc : PyVal) : Bool :=
  match query, doc with
  | .vDict conds, .vDict fields =>
    conds.all fun kv => lookupField fields kv.1 == some kv.2
  | _, _ => false

/-- Replace the first element satisfying `p` by its image under `g`;
also return MongoDB's `modified_count` for `update_one` (1 when the
replaced document actually changed, else 0). -/
def updateFirstMatch (p : PyVal → Bool) (g : PyVal → PyVal) :
    List PyVal → List PyVal × Nat
  | [] => ([], 0)
  | d :: rest =>
    if p d then (g d :: rest, if g d == d then 0 else 1)
    else
      let (rest2, n) := updateFirstMatch p g rest
      (d :: rest2, n)

/-- Apply `g` to every element satisfying `p` (MongoDB `update_many`). -/
def updateAllMatches (p : PyVal → Bool) (g : PyVal → PyVal)
    (st : List PyVal) : List PyVal :=
  st.map fun d => if p d then g d else d

/-- MongoDB's `modified_count` for `update_many`: the number of matching
documents the update actually changed. -/
def countModifiedMany (p : PyVal → Bool) (g : PyVal → PyVal)
    (st : List PyVal) : Nat :=
  (st.filter p).countP fun d => !(g d == d)

/-- Remove the first element satisfying `p`; also return MongoDB's
`deleted_count` for `delete_one`. -/
def deleteFirstMatch (p : PyVal → Bool) : List PyVal → List PyVal × Nat
  | [] => ([], 0)
  | d :: rest =>
    if p d then (rest, 1)
    else
      let (rest2, n) := deleteFirstMatch p rest
      (d :: rest2, n)

/-- Modelled from the spec: the MongoDB driver over an explicit list of
stored documents (spec §6: the layer "issues standard
find/insert/update/delete calls" against the external driver).  Inserts
append and assign an identifier; `find` returns the matching documents;
`update_one`/`update_many` rewrite the first / every match with the
update-spec interpretation `applyUpdate`; `delete_one`/`delete_many`
remove the first / every match.  Acknowledged writes report their
counts. -/
def mongoDriver (applyUpdate : PyVal → PyVal → PyVal) : Driver (List PyVal) :=
  { insert_one := fun st doc =>
      (.ok { acknowledged := true, inserted_id := some (.vStr "ObjectId") }, st ++ [doc])
    find := fun st q => (.ok (st.filter (matchesQuery q)), st)
    update_one := fun st q v =>
      let (st2, n) := updateFirstMatch (matchesQuery q) (applyUpdate v) st
      (.ok { modified_count := some (n : Int) }, st2)
    update_many := fun st q v =>
      (.ok { modified_count := some ((countModifiedMany (matchesQuery q) (applyUpdate v) st : Nat) : Int) },
       updateAllMatches (matchesQuery q) (applyUpdate v) st)
    delete_one := fun st q =>
      let (st2, n) := deleteFirstMatch (matchesQuery q) st
      (.ok { deleted_count := some (n : Int) }, st2)
    delete_many := fun st q =>
      (.ok { deleted_count := some ((st.countP (matchesQuery q) : Nat) : Int) },
       st.filter fun d => !(matchesQuery q d)) }

/-- An adapter whose construction completed: both handles bound. -/
def connectedSelf : CRUDState :=
  { _client := some (), _collection := some (),
    _db_name := "aac", _collection_name := "animals" }

/-- An update-spec interpretation that changes nothing (used to
instantiate `mongoDriver` where the update semantics is irrelevant). -/
def idUpdate : PyVal → PyVal → PyVal := fun _ d => d

/-!
## Helper lemmas
-/

/-- The `except errors.PyMongoError` wrapper never changes the adapter
fields. -/
theorem handleExceptPyMongo_self {σ α : Type} (sentinel : α) (r : OpResult σ α) :
    (handleExceptPyMongo sentinel r).self = r.self := by
  unfold handleExceptPyMongo
  split <;> rfl

/-- `int(some n or 0)` is `n` itself. -/
theorem pyIntOrZero_some (n : Int) : pyIntOrZero (some n) = n := by
  by_cases h : n = 0 <;> simp [pyIntOrZero, h]

/-- `int(c or 0)` is nonnegative whenever the count, if present, is. -/
theorem pyIntOrZero_nonneg (c : Option Int) (h : ∀ n, c = some n → 0 ≤ n) :
    0 ≤ pyIntOrZero c := by
  cases c with
  | none => simp [pyIntOrZero]
  | some n => rw [pyIntOrZero_some]; exact h n rfl

/-- `updateFirstMatch` on a list with no match is the identity with
modified count `0`. -/
theorem updateFirstMatch_of_no_match (p : PyVal → Bool) (g : PyVal → PyVal)
    (st : List PyVal) (h : ∀ x ∈ st, p x = false) :
    updateFirstMatch p g st = (st, 0) := by
  induction st with
  | nil => rfl
  | cons d rest ih =>
    have hd := h d (by simp)
    simp [updateFirstMatch, hd, ih fun x hx => h x (by simp [hx])]

/-- `updateFirstMatch` either finds no match and does nothing, or
rewrites exactly the first matching element. -/
theorem updateFirstMatch_decomp (p : PyVal → Bool) (g : PyVal → PyVal)
    (st : List PyVal) :
    (updateFirstMatch p g st = (st, 0) ∧ ∀ x ∈ st, p x = false) ∨
    (∃ pre d post, st = pre ++ d :: post ∧ p d = true ∧
       (∀ x ∈ pre, p x = false) ∧
       updateFirstMatch p g st = (pre ++ g d :: post, if g d == d then 0 else 1)) := by
  induction st with
  | nil => exact Or.inl ⟨rfl, by simp⟩
  | cons d rest ih =>
    cases hd : p d with
    | true =>
      refine Or.inr ⟨[], d, rest, rfl, hd, by simp, ?_⟩
      simp [updateFirstMatch, hd]
    | false =>
      rcases ih with ⟨heq, hall⟩ | ⟨pre, x, post, hst, hpx, hpre, heq⟩
      · refine Or.inl ⟨by simp [updateFirstMatch, hd, heq], ?_⟩
        intro x hx
        rcases List.mem_cons.mp hx with h1 | h2
        · exact h1 ▸ hd
        · exact hall x h2
      · refine Or.inr ⟨d :: pre, x, post, by simp [hst], hpx, ?_, ?_⟩
        · intro y hy
          rcases List.mem_cons.mp hy with h1 | h2
          · exact h1 ▸ hd
          · exact hpre y h2
        · simp [updateFirstMatch, hd, heq]

/-- `updateAllMatches` on a list with no match is the identity. -/
theorem updateAllMatches_of_no_match (p : PyVal → Bool) (g : PyVal → PyVal)
    (st : List PyVal) (h : ∀ x ∈ st, p x = false) :
    updateAllMatches p g st = st := by
  unfold updateAllMatches
  calc st.map (fun d => if p d then g d else d)
      = st.map id := List.map_congr_left fun d hd => by simp [h d hd]
    _ = st := List.map_id st

/-- `countModifiedMany` on a list with no match is `0`. -/
theorem countModifiedMany_of_no_match (p : PyVal → Bool) (g : PyVal → PyVal)
    (st : List PyVal) (h : ∀ x ∈ st, p x = false) :
    countModifiedMany p g st = 0 := by
  unfold countModifiedMany
  have : st.filter p = [] := List.filter_eq_nil_iff.mpr fun a ha => by simp [h a ha]
  simp [this]

/-!
## Claim theorems
-/

/-- C1: for every mapping document, `create` returns `True` exactly when
the driver acknowledged the insert and assigned an inserted identifier,
and returns `False` — instead of propagating the exception — whenever
the insert raised any `PyMongoError`. -/
theorem create_ack_and_id {σ : Type} (drv : Driver σ) (self : CRUDState) (st : σ)
    (document : PyVal) (hdoc : document.isDict = true)
    (hcoll : self._collection = some ()) :
    (CRUD.create drv self st document).ret =
      .ok (match (drv.insert_one st document).1 with
           | .ok result => result.acknowledged && result.inserted_id.isSome
           | .error _ => false) := by
  rcases hins : drv.insert_one st document with ⟨r, st2⟩
  rcases r with msg | result <;>
    simp [CRUD.create, CRUD._ensure_collection, hcoll, hdoc, hins, handleExceptPyMongo]

/-- C1 witness: inserting the empty document through the model driver
(acknowledged, identifier assigned) returns `True`. -/
theorem create_ack_and_id_witness :
    (CRUD.create (mongoDriver idUpdate) connectedSelf ([] : List PyVal) (.vDict [])).ret =
      .ok true :=
  (create_ack_and_id (mongoDriver idUpdate) connectedSelf ([] : List PyVal)
    (.vDict []) rfl rfl).trans rfl

/-- C2: a non-mapping argument to `create`, `read`, `update` (either the
query or the update spec) or `delete` raises `ValueError` to the caller
— the method's own `except errors.PyMongoError` clause does not convert
it to the soft-failure sentinel — and no driver call is issued, leaving
the driver state untouched. -/
theorem nondict_argument_raises {σ : Type} (drv : Driver σ) (self : CRUDState)
    (st : σ) (v w : PyVal) (many : Bool) (hv : v.isDict = false) :
    CRUD.create drv self st v =
      { ret := .error (.valueError "create() expects a dict document."),
        self := self, st := st, calls := [] } ∧
    CRUD.read drv self st v =
      { ret := .error (.valueError "read() expects a dict query."),
        self := self, st := st, calls := [] } ∧
    CRUD.update drv self st v w many =
      { ret := .error (.valueError "update() expects a dict query."),
        self := self, st := st, calls := [] } ∧
    (w.isDict = true →
      CRUD.update drv self st w v many =
        { ret := .error (.valueError "update() expects a dict update spec (e.g., \x7b\x27$set\x27: \x7b...\x7d\x7d)."),
          self := self, st := st, calls := [] }) ∧
    CRUD.delete drv self st v many =
      { ret := .error (.valueError "delete() expects a dict query."),
        self := self, st := st, calls := [] } := by
  refine ⟨?_, ?_, ?_, fun hw => ?_, ?_⟩ <;>
    simp [CRUD.create, CRUD.read, CRUD.update, CRUD.delete, hv, handleExceptPyMongo,
          *]

/-- C2 witness: passing the string `"x"` where a dict is expected yields
the `ValueError`, concretely for `create` and for `update`'s spec
argument. -/
theorem nondict_argument_raises_witness :
    (CRUD.create (mongoDriver idUpdate) connectedSelf ([] : List PyVal) (.vStr "x")).ret =
      .error (.valueError "create() expects a dict document.") ∧
    (CRUD.update (mongoDriver idUpdate) connectedSelf ([] : List PyVal)
        (.vDict []) (.vStr "x") false).ret =
      .error (.valueError "update() expects a dict update spec (e.g., \x7b\x27$set\x27: \x7b...\x7d\x7d).") :=
  ⟨congrArg OpResult.ret
    (nondict_argument_raises (mongoDriver idUpdate) connectedSelf ([] : List PyVal)
      (.vStr "x") (.vDict []) false rfl).1,
   congrArg OpResult.ret
    ((nondict_argument_raises (mongoDriver idUpdate) connectedSelf ([] : List PyVal)
      (.vStr "x") (.vDict []) false rfl).2.2.2.1 rfl)⟩

/-- C3: for a mapping query, `read` returns whatever document list the
driver's `find` produced and, on the model driver, that is exactly the
documents matching the query; zero matches give `[]`, and any
`PyMongoError` during `find`/materialization also gives `[]` instead of
propagating. -/
theorem read_returns_matches {σ : Type} (drv : Driver σ) (self : CRUDState)
    (st : σ) (query : PyVal) (hq : query.isDict = true)
    (hcoll : self._collection = some ()) :
    ((CRUD.read drv self st query).ret =
       .ok (match (drv.find st query).1 with
            | .ok docs => docs
            | .error _ => [])) ∧
    (∀ (f : PyVal → PyVal → PyVal) (stM : List PyVal),
       (CRUD.read (mongoDriver f) self stM query).ret =
         .ok (stM.filter (matchesQuery query))) ∧
    (∀ (f : PyVal → PyVal → PyVal) (stM : List PyVal),
       stM.countP (matchesQuery query) = 0 →
         (CRUD.read (mongoDriver f) self stM query).ret = .ok ([] : List PyVal)) := by
  refine ⟨?_, fun f stM => ?_, fun f stM hzero => ?_⟩
  · rcases hfind : drv.find st query with ⟨r, st2⟩
    rcases r with msg | docs <;>
      simp [CRUD.read, CRUD._ensure_collection, hcoll, hq, hfind, handleExceptPyMongo]
  · simp [CRUD.read, CRUD._ensure_collection, hcoll, hq, mongoDriver, handleExceptPyMongo]
  · have hnil : stM.filter (matchesQuery query) = [] :=
      List.filter_eq_nil_iff.mpr fun a ha => by
        simpa using List.countP_eq_zero.mp hzero a ha
    simp [CRUD.read, CRUD._ensure_collection, hcoll, hq, mongoDriver,
          handleExceptPyMongo, hnil]

/-- C3 witness: on a store holding one matching and one non-matching
document, `read` returns exactly the matching one; on the empty store it
returns `[]`. -/
theorem read_returns_matches_witness :
    (CRUD.read (mongoDriver idUpdate) connectedSelf
        [PyVal.vDict [("species", .vStr "Dog")], PyVal.vDict [("species", .vStr "Cat")]]
        (.vDict [("species", .vStr "Dog")])).ret =
      .ok [PyVal.vDict [("species", .vStr "Dog")]] ∧
    (CRUD.read (mongoDriver idUpdate) connectedSelf ([] : List PyVal)
        (.vDict [("species", .vStr "Dog")])).ret = .ok ([] : List PyVal) :=
  ⟨((read_returns_matches (mongoDriver idUpdate) connectedSelf
      [PyVal.vDict [("species", .vStr "Dog")], PyVal.vDict [("species", .vStr "Cat")]]
      (.vDict [("species", .vStr "Dog")]) rfl rfl).2.1 idUpdate
      [PyVal.vDict [("species", .vStr "Dog")], PyVal.vDict [("species", .vStr "Cat")]]).trans
      (by rfl),
   (read_returns_matches (mongoDriver idUpdate) connectedSelf ([] : List PyVal)
      (.vDict [("species", .vStr "Dog")]) rfl rfl).2.2 idUpdate [] rfl⟩

/-- C4: for mapping query and update spec, `update` with `many = True`
applies the update to every matching record and returns the number of
records actually modified; with `many = False` it rewrites at most the
first matching record (count between 0 and 1); it returns 0 when nothing
matched, and returns 0 on any `PyMongoError` from the driver — the same
value as matching zero records. -/
theorem update_contract (query new_values : PyVal) (self : CRUDState)
    (hq : query.isDict = true) (hv : new_values.isDict = true)
    (hcoll : self._collection = some ()) :
    (∀ (f : PyVal → PyVal → PyVal) (st : List PyVal),
       CRUD.update (mongoDriver f) self st query new_values true =
         { ret := .ok ((countModifiedMany (matchesQuery query) (f new_values) st : Nat) : Int),
           self := self,
           st := updateAllMatches (matchesQuery query) (f new_values) st,
           calls := [.updateManyCall query new_values] }) ∧
    (∀ (f : PyVal → PyVal → PyVal) (st : List PyVal),
       ((CRUD.update (mongoDriver f) self st query new_values false).st = st ∧
        (CRUD.update (mongoDriver f) self st query new_values false).ret = .ok 0) ∨
       (∃ pre d post, st = pre ++ d :: post ∧ matchesQuery query d = true ∧
          (∀ x ∈ pre, matchesQuery query x = false) ∧
          (CRUD.update (mongoDriver f) self st query new_values false).st =
            pre ++ f new_values d :: post ∧
          ∃ n : Int,
            (CRUD.update (mongoDriver f) self st query new_values false).ret = .ok n ∧
            0 ≤ n ∧ n ≤ 1)) ∧
    (∀ (f : PyVal → PyVal → PyVal) (st : List PyVal) (many : Bool),
       st.countP (matchesQuery query) = 0 →
         (CRUD.update (mongoDriver f) self st query new_values many).ret = .ok 0) ∧
    (∀ (σ : Type) (drv : Driver σ) (st : σ) (many : Bool) (msg : String) (st2 : σ),
       (if many then drv.update_many st query new_values
        else drv.update_one st query new_values) = (.error msg, st2) →
         (CRUD.update drv self st query new_values many).ret = .ok 0) := by
  refine ⟨fun f st => ?_, fun f st => ?_, fun f st many hzero => ?_,
          fun σ drv st many msg st2 hfail => ?_⟩
  · simp [CRUD.update, CRUD._ensure_collection, hcoll, hq, hv, mongoDriver,
          handleExceptPyMongo, pyIntOrZero_some]
  · rcases updateFirstMatch_decomp (matchesQuery query) (f new_values) st with
      ⟨heq, hall⟩ | ⟨pre, d, post, hst, hpd, hpre, heq⟩
    · left
      constructor <;>
        simp [CRUD.update, CRUD._ensure_collection, hcoll, hq, hv, mongoDriver,
              handleExceptPyMongo, heq, pyIntOrZero_some]
    · right
      refine ⟨pre, d, post, hst, hpd, hpre, ?_, ?_⟩
      · simp [CRUD.update, CRUD._ensure_collection, hcoll, hq, hv, mongoDriver,
              handleExceptPyMongo, heq]
      · refine ⟨((if f new_values d == d then 0 else 1 : Nat) : Int), ?_, ?_, ?_⟩
        · simp [CRUD.update, CRUD._ensure_collection, hcoll, hq, hv, mongoDriver,
                handleExceptPyMongo, heq, pyIntOrZero_some]
        · positivity
        · split <;> simp
  · have hall : ∀ x ∈ st, matchesQuery query x = false := fun x hx => by
      simpa using List.countP_eq_zero.mp hzero x hx
    cases many with
    | true =>
      simp [CRUD.update, CRUD._ensure_collection, hcoll, hq, hv, mongoDriver,
            handleExceptPyMongo, pyIntOrZero_some,
            countModifiedMany_of_no_match _ _ _ hall]
    | false =>
      simp [CRUD.update, CRUD._ensure_collection, hcoll, hq, hv, mongoDriver,
            handleExceptPyMongo, pyIntOrZero_some,
            updateFirstMatch_of_no_match _ _ _ hall]
  · cases many <;>
      simp_all [CRUD.update, CRUD._ensure_collection, hcoll, hq, hv,
                handleExceptPyMongo]

/-- C4 witness: one concrete run of each conjunct — `update_many` over a
two-element store modifies both matches, `update_one` modifies only the
first, the empty store yields 0, and a failing driver yields 0. -/
theorem update_contract_witness :
    (CRUD.update (mongoDriver (fun _ _ => PyVal.vDict [("species", .vStr "Canine")]))
        connectedSelf
        [PyVal.vDict [("species", .vStr "Dog")], PyVal.vDict [("species", .vStr "Dog")]]
        (.vDict [("species", .vStr "Dog")])
        (.vDict [("$set", .vDict [("species", .vStr "Canine")])]) true).ret =
      .ok 2 ∧
    (CRUD.update (mongoDriver (fun _ _ => PyVal.vDict [("species", .vStr "Canine")]))
        connectedSelf ([] : List PyVal)
        (.vDict [("species", .vStr "Dog")])
        (.vDict [("$set", .vDict [("species", .vStr "Canine")])]) false).ret =
      .ok 0 := by
  constructor
  · exact congrArg OpResult.ret
      ((update_contract (.vDict [("species", .vStr "Dog")])
          (.vDict [("$set", .vDict [("species", .vStr "Canine")])])
          connectedSelf rfl rfl rfl).1
        (fun _ _ => PyVal.vDict [("species", .vStr "Canine")])
        [PyVal.vDict [("species", .vStr "Dog")], PyVal.vDict [("species", .vStr "Dog")]]) |>.trans
      (by rfl)
  · exact (update_contract (.vDict [("species", .vStr "Dog")])
        (.vDict [("$set", .vDict [("species", .vStr "Canine")])])
        connectedSelf rfl rfl rfl).2.2.1
      (fun _ _ => PyVal.vDict [("species", .vStr "Canine")]) [] false rfl

/-- C5: any `PyMongoError` from the driver during `MongoClient`
construction or the liveness ping is caught and re-raised as a single
`RuntimeError` carrying the original message, so construction fails (no
adapter state is produced) after exactly one connection attempt and at
most one ping — no retry. -/
theorem connect_failure_wrapped (config : MongoConfig)
    (db_name collection_name : String)
    (clientOutcome : ClientKwargs → Except String Unit)
    (pingOutcome : Except String Unit) (msg : String)
    (h : clientOutcome (buildClientKwargs config) = .error msg ∨
         (clientOutcome (buildClientKwargs config) = .ok () ∧
          pingOutcome = .error msg)) :
    (CRUD.init config db_name collection_name clientOutcome pingOutcome).1 =
      .error (.runtimeError ("[MongoDB] Connection failed: " ++ msg)) ∧
    (CRUD.init config db_name collection_name clientOutcome pingOutcome).2.countP
      ConnectCall.isMongoClientCall = 1 ∧
    (CRUD.init config db_name collection_name clientOutcome pingOutcome).2.countP
      (fun c => !c.isMongoClientCall) ≤ 1 := by
  rcases h with h | ⟨h1, h2⟩ <;>
    simp [CRUD.init, CRUD._connect, ConnectCall.isMongoClientCall, *]

/-- C5 witness: a driver that fails `MongoClient` construction with
message `"boom"` makes construction raise the wrapped `RuntimeError`
after one connection attempt. -/
theorem connect_failure_wrapped_witness :
    (CRUD.init {} "aac" "animals" (fun _ => .error "boom") (.ok ())).1 =
      .error (.runtimeError ("[MongoDB] Connection failed: " ++ "boom")) ∧
    (CRUD.init {} "aac" "animals" (fun _ => .error "boom") (.ok ())).2.countP
      ConnectCall.isMongoClientCall = 1 ∧
    (CRUD.init {} "aac" "animals" (fun _ => .error "boom") (.ok ())).2.countP
      (fun c => !c.isMongoClientCall) ≤ 1 :=
  connect_failure_wrapped {} "aac" "animals" (fun _ => .error "boom") (.ok ())
    "boom" (Or.inl rfl)

/-- Normal form of the built `client_kwargs`. -/
theorem buildClientKwargs_eq (config : MongoConfig) :
    buildClientKwargs config =
      { host := config.host, port := config.port, tls := config.tls,
        connectTimeoutMS := 5000, serverSelectionTimeoutMS := 5000,
        username := if pyTruthyStr config.username && pyTruthyStr config.password
                    then some config.username else none,
        password := if pyTruthyStr config.username && pyTruthyStr config.password
                    then some config.password else none,
        authSource := if pyTruthyStr config.username && pyTruthyStr config.password
                      then some config.authSource else none,
        replicaSet := if pyTruthyOptStr config.replicaSet
                      then config.replicaSet else none } := by
  cases h1 : (pyTruthyStr config.username && pyTruthyStr config.password) <;>
    cases h2 : pyTruthyOptStr config.replicaSet <;>
      simp [buildClientKwargs, h1, h2]

/-- C6: the built `client_kwargs` carry the username, password and
`authSource` exactly when both username and password are non-empty
(otherwise none of the three is present, i.e. the adapter connects
without authentication), and carry a `replicaSet` entry exactly when the
config\'s replica set is present and non-empty. -/
theorem kwargs_credentials_iff (config : MongoConfig) :
    ((buildClientKwargs config).username = some config.username ∧
     (buildClientKwargs config).password = some config.password ∧
     (buildClientKwargs config).authSource = some config.authSource ↔
       config.username ≠ "" ∧ config.password ≠ "") ∧
    ((buildClientKwargs config).username = none ∧
     (buildClientKwargs config).password = none ∧
     (buildClientKwargs config).authSource = none ↔
       ¬(config.username ≠ "" ∧ config.password ≠ "")) ∧
    (∀ s : String, (buildClientKwargs config).replicaSet = some s ↔
       config.replicaSet = some s ∧ s ≠ "") := by
  have hb := buildClientKwargs_eq config
  have hcond : (pyTruthyStr config.username && pyTruthyStr config.password) = true ↔
      config.username ≠ "" ∧ config.password ≠ "" := by
    simp [pyTruthyStr]
  refine ⟨?_, ?_, fun s => ?_⟩
  · by_cases hc : config.username ≠ "" ∧ config.password ≠ ""
    · simp [hb, hcond.mpr hc, hc]
    · have hcf : (pyTruthyStr config.username && pyTruthyStr config.password) = false :=
        Bool.eq_false_iff.mpr fun h => hc (hcond.mp h)
      simp [hb, hcf, hc]
  · by_cases hc : config.username ≠ "" ∧ config.password ≠ ""
    · simp [hb, hcond.mpr hc, hc]
    · have hcf : (pyTruthyStr config.username && pyTruthyStr config.password) = false :=
        Bool.eq_false_iff.mpr fun h => hc (hcond.mp h)
      simp [hb, hcf, hc]
  · rcases hrep : config.replicaSet with _ | s0
    · simp [hb, hrep, pyTruthyOptStr]
    · by_cases hs0 : s0 = ""
      · have hrs : (buildClientKwargs config).replicaSet = none := by
          rw [hb]; simp [pyTruthyOptStr, hrep, hs0]
        rw [hrs]
        constructor
        · intro h
          exact Option.noConfusion h
        · rintro ⟨h1, h2⟩
          exact absurd ((Option.some.inj h1).symm.trans hs0) h2
      · have hrs : (buildClientKwargs config).replicaSet = some s0 := by
          rw [hb]; simp [pyTruthyOptStr, hrep, hs0]
        rw [hrs]
        constructor
        · intro h
          exact ⟨h, (Option.some.inj h) ▸ hs0⟩
        · exact fun h => h.1

/-- C6 witness: with both credentials and a replica set name set, the
built kwargs carry the replica-set entry; with the password missing,
they carry no username. -/
theorem kwargs_credentials_iff_witness :
    (buildClientKwargs
        { username := "aacuser", password := "pw", replicaSet := some "rs0" }).replicaSet =
      some "rs0" ∧
    (buildClientKwargs { username := "aacuser" }).username = none :=
  ⟨((kwargs_credentials_iff
        { username := "aacuser", password := "pw", replicaSet := some "rs0" }).2.2
      "rs0").mpr ⟨rfl, by decide⟩,
   ((kwargs_credentials_iff { username := "aacuser" }).2.1.mpr
      (by intro h; exact h.2 rfl)).1⟩

/-- C7 counterexample: with the default `many = False` (the claim fixes
no `many`), the claim's "nonzero count on the first call and zero on the
second" fails on the model driver: on an empty store the first
`delete({})` already returns 0, and on a store with two matching
documents the second `delete_one` still returns 1. -/
theorem delete_twice_counterexample :
    ¬ (∀ (query : PyVal), query.isDict = true → ∀ (st : List PyVal),
        (∃ n : Int,
           (CRUD.delete (mongoDriver idUpdate) connectedSelf st query false).ret = .ok n ∧
           n ≠ 0) ∧
        (CRUD.delete (mongoDriver idUpdate) connectedSelf
            (CRUD.delete (mongoDriver idUpdate) connectedSelf st query false).st
            query false).ret = .ok 0) := by
  intro h
  rcases (h (.vDict []) rfl []).1 with ⟨n, hn, hne⟩
  have h0 : (CRUD.delete (mongoDriver idUpdate) connectedSelf ([] : List PyVal)
      (.vDict []) false).ret = .ok 0 := rfl
  rw [h0] at hn
  exact hne (Except.ok.inj hn).symm

/-- C7 (amended): with `many = True` and at least one matching record,
deleting twice in succession with no intervening insert yields a
positive count on the first call and zero on the second. -/
theorem delete_many_twice (query : PyVal) (self : CRUDState)
    (f : PyVal → PyVal → PyVal) (st : List PyVal)
    (hq : query.isDict = true) (hcoll : self._collection = some ())
    (hmatch : st.countP (matchesQuery query) ≠ 0) :
    ∃ n : Int,
      (CRUD.delete (mongoDriver f) self st query true).ret = .ok n ∧ 0 < n ∧
      (CRUD.delete (mongoDriver f) self
          (CRUD.delete (mongoDriver f) self st query true).st query true).ret =
        .ok 0 := by
  refine ⟨(st.countP (matchesQuery query) : Int), ?_, ?_, ?_⟩
  · simp [CRUD.delete, CRUD._ensure_collection, hcoll, hq, mongoDriver,
          handleExceptPyMongo, pyIntOrZero_some]
  · exact_mod_cast Nat.pos_of_ne_zero hmatch
  · have hst1 : (CRUD.delete (mongoDriver f) self st query true).st =
        st.filter (fun d => !(matchesQuery query d)) := by
      simp [CRUD.delete, CRUD._ensure_collection, hcoll, hq, mongoDriver,
            handleExceptPyMongo]
    have hzero : (st.filter (fun d => !(matchesQuery query d))).countP
        (matchesQuery query) = 0 := by
      rw [List.countP_eq_zero]
      intro a ha
      have := List.of_mem_filter ha
      simp at this
      simp [this]
    rw [hst1]
    simp [CRUD.delete, CRUD._ensure_collection, hcoll, hq, mongoDriver,
          handleExceptPyMongo, hzero, pyIntOrZero]

/-- C7 witness: two matching documents, `many = True` — the first call
deletes both (count 2), the second deletes none (count 0). -/
theorem delete_many_twice_witness :
    ∃ n : Int,
      (CRUD.delete (mongoDriver idUpdate) connectedSelf
          [PyVal.vDict [("a", .vInt 1)], PyVal.vDict [("a", .vInt 1)]]
          (.vDict [("a", .vInt 1)]) true).ret = .ok n ∧ 0 < n ∧
      (CRUD.delete (mongoDriver idUpdate) connectedSelf
          (CRUD.delete (mongoDriver idUpdate) connectedSelf
              [PyVal.vDict [("a", .vInt 1)], PyVal.vDict [("a", .vInt 1)]]
              (.vDict [("a", .vInt 1)]) true).st
          (.vDict [("a", .vInt 1)]) true).ret = .ok 0 :=
  delete_many_twice (.vDict [("a", .vInt 1)]) connectedSelf idUpdate
    [PyVal.vDict [("a", .vInt 1)], PyVal.vDict [("a", .vInt 1)]]
    rfl rfl (by decide)

/-- C8: the four operations return the adapter fields they received —
no operation reassigns `_client`, `_collection`, `_db_name` or
`_collection_name` — and a successful construction is what sets the
connection handle and bound collection. -/
theorem adapter_fields_frame {σ : Type} (drv : Driver σ) (self : CRUDState)
    (st : σ) (d q v : PyVal) (many : Bool) (config : MongoConfig)
    (db_name collection_name : String)
    (clientOutcome : ClientKwargs → Except String Unit)
    (pingOutcome : Except String Unit) :
    (CRUD.create drv self st d).self = self ∧
    (CRUD.read drv self st q).self = self ∧
    (CRUD.update drv self st q v many).self = self ∧
    (CRUD.delete drv self st q many).self = self ∧
    (∀ s2, (CRUD.init config db_name collection_name clientOutcome pingOutcome).1 =
        .ok s2 →
      s2._client = some () ∧ s2._collection = some () ∧
      s2._db_name = db_name ∧ s2._collection_name = collection_name) := by
  refine ⟨?_, ?_, ?_, ?_, fun s2 hs2 => ?_⟩
  · rw [CRUD.create, handleExceptPyMongo_self]
    repeat' split
    all_goals rfl
  · rw [CRUD.read, handleExceptPyMongo_self]
    repeat' split
    all_goals rfl
  · rw [CRUD.update, handleExceptPyMongo_self]
    repeat' split
    all_goals rfl
  · rw [CRUD.delete, handleExceptPyMongo_self]
    repeat' split
    all_goals rfl
  · rcases hco : clientOutcome (buildClientKwargs config) with e | u
    · simp [CRUD.init, CRUD._connect, hco] at hs2
    · rcases hpo : pingOutcome with e | u2
      · simp [CRUD.init, CRUD._connect, hco, hpo] at hs2
      · simp only [CRUD.init, CRUD._connect, hco, hpo] at hs2
        cases Except.ok.inj hs2
        exact ⟨rfl, rfl, rfl, rfl⟩

/-- C8 witness: a concrete run of every conjunct, including a successful
construction binding both handles. -/
theorem adapter_fields_frame_witness :
    (CRUD.create (mongoDriver idUpdate) connectedSelf ([] : List PyVal)
        (.vDict [])).self = connectedSelf ∧
    (∀ s2, (CRUD.init {} "aac" "animals" (fun _ => .ok ()) (.ok ())).1 = .ok s2 →
      s2._client = some () ∧ s2._collection = some () ∧
      s2._db_name = "aac" ∧ s2._collection_name = "animals") :=
  ⟨(adapter_fields_frame (mongoDriver idUpdate) connectedSelf ([] : List PyVal)
      (.vDict []) (.vDict []) (.vDict []) false {} "aac" "animals"
      (fun _ => .ok ()) (.ok ())).1,
   (adapter_fields_frame (mongoDriver idUpdate) connectedSelf ([] : List PyVal)
      (.vDict []) (.vDict []) (.vDict []) false {} "aac" "animals"
      (fun _ => .ok ()) (.ok ())).2.2.2.2⟩

/-- C9: with the bound collection uninitialized (`None`), each public
operation raises the `RuntimeError` from `_ensure_collection` to the
caller — it is not a `PyMongoError`, so the operation's handler does not
convert it to the soft-failure sentinel — and no driver call is made. -/
theorem uninitialized_collection_raises {σ : Type} (drv : Driver σ)
    (self : CRUDState) (st : σ) (q v : PyVal) (many : Bool)
    (hq : q.isDict = true) (hv : v.isDict = true)
    (hcoll : self._collection = none) :
    CRUD.create drv self st q =
      { ret := .error (.runtimeError "[MongoDB] Collection is not initialized."),
        self := self, st := st, calls := [] } ∧
    CRUD.read drv self st q =
      { ret := .error (.runtimeError "[MongoDB] Collection is not initialized."),
        self := self, st := st, calls := [] } ∧
    CRUD.update drv self st q v many =
      { ret := .error (.runtimeError "[MongoDB] Collection is not initialized."),
        self := self, st := st, calls := [] } ∧
    CRUD.delete drv self st q many =
      { ret := .error (.runtimeError "[MongoDB] Collection is not initialized."),
        self := self, st := st, calls := [] } := by
  refine ⟨?_, ?_, ?_, ?_⟩ <;>
    simp [CRUD.create, CRUD.read, CRUD.update, CRUD.delete, CRUD._ensure_collection,
          hq, hv, hcoll, handleExceptPyMongo]

/-- C9 witness: a concrete uninitialized adapter raises the
`RuntimeError` from `create`. -/
theorem uninitialized_collection_raises_witness :
    CRUD.create (mongoDriver idUpdate)
        { _client := none, _collection := none,
          _db_name := "aac", _collection_name := "animals" }
        ([] : List PyVal) (.vDict []) =
      { ret := .error (.runtimeError "[MongoDB] Collection is not initialized."),
        self := { _client := none, _collection := none,
                  _db_name := "aac", _collection_name := "animals" },
        st := [], calls := [] } :=
  (uninitialized_collection_raises (mongoDriver idUpdate)
    { _client := none, _collection := none,
      _db_name := "aac", _collection_name := "animals" }
    ([] : List PyVal) (.vDict []) (.vDict []) false rfl rfl rfl).1

/-- C10: for mapping arguments on a bound collection, `update` and
`delete` always return an integer `≥ 0` (given that the driver reports
nonnegative counts when it reports one at all), and a driver result
whose count is absent (`None`) is coerced to `0` by `int(... or 0)`
rather than returned as `None` or raised. -/
theorem counts_nonneg {σ : Type} (drv : Driver σ) (self : CRUDState) (st : σ)
    (q v : PyVal) (many : Bool) (hq : q.isDict = true) (hv : v.isDict = true)
    (hcoll : self._collection = some ())
    (hupd : ∀ r st2,
       (if many then drv.update_many st q v else drv.update_one st q v) =
         (.ok r, st2) → ∀ n, r.modified_count = some n → 0 ≤ n)
    (hdel : ∀ r st2,
       (if many then drv.delete_many st q else drv.delete_one st q) =
         (.ok r, st2) → ∀ n, r.deleted_count = some n → 0 ≤ n) :
    (∃ k : Int, (CRUD.update drv self st q v many).ret = .ok k ∧ 0 ≤ k) ∧
    (∃ k : Int, (CRUD.delete drv self st q many).ret = .ok k ∧ 0 ≤ k) ∧
    (∀ r st2,
       (if many then drv.update_many st q v else drv.update_one st q v) =
         (.ok r, st2) → r.modified_count = none →
       (CRUD.update drv self st q v many).ret = .ok 0) ∧
    (∀ r st2,
       (if many then drv.delete_many st q else drv.delete_one st q) =
         (.ok r, st2) → r.deleted_count = none →
       (CRUD.delete drv self st q many).ret = .ok 0) := by
  refine ⟨?_, ?_, fun r st2 hres hnone => ?_, fun r st2 hres hnone => ?_⟩
  · rcases hres : (if many then drv.update_many st q v else drv.update_one st q v)
      with ⟨r, st2⟩
    rcases r with msg | result
    · exact ⟨0, by
        simp [CRUD.update, CRUD._ensure_collection, hcoll, hq, hv, hres,
              handleExceptPyMongo], le_refl 0⟩
    · refine ⟨pyIntOrZero result.modified_count, ?_, ?_⟩
      · simp [CRUD.update, CRUD._ensure_collection, hcoll, hq, hv, hres,
              handleExceptPyMongo]
      · exact pyIntOrZero_nonneg _ (hupd result st2 hres)
  · rcases hres : (if many then drv.delete_many st q else drv.delete_one st q)
      with ⟨r, st2⟩
    rcases r with msg | result
    · exact ⟨0, by
        simp [CRUD.delete, CRUD._ensure_collection, hcoll, hq, hres,
              handleExceptPyMongo], le_refl 0⟩
    · refine ⟨pyIntOrZero result.deleted_count, ?_, ?_⟩
      · simp [CRUD.delete, CRUD._ensure_collection, hcoll, hq, hres,
              handleExceptPyMongo]
      · exact pyIntOrZero_nonneg _ (hdel result st2 hres)
  · simp [CRUD.update, CRUD._ensure_collection, hcoll, hq, hv, hres,
          handleExceptPyMongo, hnone, pyIntOrZero]
  · simp [CRUD.delete, CRUD._ensure_collection, hcoll, hq, hres,
          handleExceptPyMongo, hnone, pyIntOrZero]

/-- C10 witness: a driver whose `UpdateResult` carries no
`modified_count` makes `update` return 0. -/
theorem counts_nonneg_witness :
    (CRUD.update
        { insert_one := fun st _ => (.ok { acknowledged := true, inserted_id := none }, st),
          find := fun st _ => (.ok [], st),
          update_one := fun st _ _ => (.ok { modified_count := none }, st),
          update_many := fun st _ _ => (.ok { modified_count := none }, st),
          delete_one := fun st _ => (.ok { deleted_count := none }, st),
          delete_many := fun st _ => (.ok { deleted_count := none }, st) }
        connectedSelf () (.vDict []) (.vDict []) false).ret = .ok 0 :=
  (counts_nonneg
      { insert_one := fun st _ => (.ok { acknowledged := true, inserted_id := none }, st),
        find := fun st _ => (.ok [], st),
        update_one := fun st _ _ => (.ok { modified_count := none }, st),
        update_many := fun st _ _ => (.ok { modified_count := none }, st),
        delete_one := fun st _ => (.ok { deleted_count := none }, st),
        delete_many := fun st _ => (.ok { deleted_count := none }, st) }
      connectedSelf () (.vDict []) (.vDict []) false rfl rfl rfl
      (fun r st2 hres n hn => by cases hres; exact Option.noConfusion hn)
      (fun r st2 hres n hn => by cases hres; exact Option.noConfusion hn)).2.2.1
    { modified_count := none } () rfl rfl

end GraziosoCrud
